import Mathlib

/-!
Shallow embedding of the batch-scoring driver scripts of the
azureml-examples repository.

The repository ships four scoring drivers, each a pair of callbacks
(init, run) invoked by the Azure ML batch host:

* an MNIST classifier driver using torch
  (deployment-torch/code/batch_driver.py),
* an image classifier driver using keras
  (deployment-keras/code/batch_driver.py),
* a text-summarization driver using a BART model
  (code/batch_driver.py of the NLP notebook),
* a write-your-own-output driver writing parquet files
  (code/batch_driver.py of the custom-outputs-parquet notebook).

Embedding conventions:

* the global state set up by init (model, device, tokenizer, output
  path) is an explicit state record returned by init and passed to run;
* fallible operations (reading a file, loading a model, environment
  lookups) are modelled with Option-valued environments and an
  Except-valued result: an unhandled Python exception is an
  Except.error value, and the error message records which operation
  raised;
* the ML frameworks (torch, tensorflow, transformers) are abstracted
  as functions carried in the state: a classifier model is a function
  from image data to a list of logits, a generation model is a
  function on token-id sequences.  Real-number softmax uses exp; the
  embedding takes the exponential map as a parameter e over the
  rationals, and the theorems assume only its positivity, the sole
  property the claims depend on.
-/

set_option autoImplicit false

namespace AzureMLBatch

/-! ## Path helpers

The drivers use os.path.basename (torch, keras) and pathlib Path.stem
(parquet driver) on input file paths. -/

/-- The characters after the last slash: every character of the reversed
list up to the first slash, re-reversed. -/
def basenameList (cs : List Char) : List Char :=
  ((cs.reverse.takeWhile (fun c => c ≠ '/')).reverse)

/-- Python os.path.basename for posix paths: the component after the last
slash (the whole string when there is no slash). -/
def basename (p : String) : String :=
  String.mk (basenameList p.toList)

/-- Index of the last occurrence of the dot character, as Python rfind:
none when absent. -/
def rfindDot (cs : List Char) : Option Nat :=
  match cs.reverse.findIdx? (fun c => c = '.') with
  | none => none
  | some k => some (cs.length - 1 - k)

/-- Python pathlib PurePath.stem: the final path component without its
last suffix.  The suffix starts at the last dot provided that dot is
neither the first nor past-the-last character of the name. -/
def stem (p : String) : String :=
  let name := basename p
  let cs := name.toList
  match rfindDot cs with
  | none => name
  | some i => if 0 < i ∧ i < cs.length - 1 then String.mk (cs.take i) else name

/-! ## Numeric helpers shared by the image drivers -/

/-- Image data (the tensor read from an input file), abstracted as a flat
list of rationals; its shape is irrelevant to the claims. -/
abbrev Image := List ℚ

/-- Softmax over a list of logits, parameterized by the exponential map e:
each entry is e x divided by the sum of e over the whole list. -/
def softmax (e : ℚ → ℚ) (xs : List ℚ) : List ℚ :=
  let s := (xs.map e).sum
  xs.map (fun x => e x / s)

/-- Maximum of a list (torch.max / tf.reduce_max on the last axis); 0 on
the empty list, which the drivers never hit with a real model output. -/
def listMax : List ℚ → ℚ
  | [] => 0
  | x :: xs => xs.foldl max x

/-- Tail of the argmax computation: running index, best index, best value. -/
def argmaxAux : List ℚ → Nat → Nat → ℚ → Nat
  | [], _, bi, _ => bi
  | x :: xs, i, bi, bv =>
      if bv < x then argmaxAux xs (i + 1) i x else argmaxAux xs (i + 1) bi bv

/-- Index of the first maximal element (torch.max index / tf.math.argmax
on the last axis); 0 on the empty list. -/
def argmaxIdx : List ℚ → Nat
  | [] => 0
  | x :: xs => argmaxAux xs 1 0 x

/-- One result record of the image-classification drivers: the dict
appended per image, with keys file, class and probability. -/
structure Record where
  file : String
  «class» : Nat
  probability : ℚ
  deriving Repr, DecidableEq

/-! ## The torch MNIST driver (deployment-torch/code/batch_driver.py) -/

/-- Worker state of the torch driver after init: the loaded
MnistClassifier (a function from image data to logits) and the chosen
device string. -/
structure TorchState where
  model : Image → List ℚ
  device : String

/-- Deployment environment seen by the torch init: the process
environment variables, the glob over model_path of the .pt pattern, the
torch.load plus load_state_dict step (none when the weights file cannot
be loaded), and CUDA availability. -/
structure TorchEnv where
  envVars : String → Option String
  globPt : String → List String
  loadStateDict : String → Option (Image → List ℚ)
  cudaAvailable : Bool

/-- Turn the result of a fallible Python step into Except, with the
exception text as the error. -/
def raiseIfNone {α : Type} (o : Option α) (msg : String) : Except String α :=
  match o with
  | some a => Except.ok a
  | none => Except.error msg

/-- init of the torch driver: read AZUREML_MODEL_DIR (KeyError when
absent), take the last .pt glob hit (IndexError when the glob is empty),
load the weights (raises on failure), and pick cuda:0 or cpu.  No step
is guarded by a try block: every failure escapes init. -/
def torchInit (E : TorchEnv) : Except String TorchState :=
  match E.envVars "AZUREML_MODEL_DIR" with
  | none => Except.error "KeyError: AZUREML_MODEL_DIR"
  | some model_path =>
    match (E.globPt model_path).getLast? with
    | none => Except.error "IndexError: list index out of range"
    | some model_file =>
      match E.loadStateDict model_file with
      | none => Except.error "RuntimeError: torch.load failed"
      | some m =>
        Except.ok { model := m
                    device := if E.cudaAvailable then "cuda:0" else "cpu" }

/-- Per-image body of the torch run loop: read_image already done, apply
the model to get logits (moving the tensor to the device does not change
its values), softmax them, and record basename, argmax class and max
probability.  torch.max returns the maximal value together with its
index, both over the softmax output. -/
def torchScore (e : ℚ → ℚ) (st : TorchState) (img : Image) (path : String) : Record :=
  let predictions := softmax e (st.model img)
  { file := basename path
    «class» := argmaxIdx predictions
    probability := listMax predictions }

/-- run of the torch driver: for each path in the mini-batch, read the
image (torchvision.io.read_image raises on a missing or malformed file,
modelled by fs returning none) and append one record.  There is no per
item error handling: the first failing read aborts the whole call. -/
def torchRun (e : ℚ → ℚ) (st : TorchState) (fs : String → Option Image) :
    List String → Except String (List Record)
  | [] => Except.ok []
  | p :: ps =>
    match fs p with
    | none => Except.error ("RuntimeError: read_image failed on " ++ p)
    | some img =>
      match torchRun e st fs ps with
      | Except.ok rs => Except.ok (torchScore e st img p :: rs)
      | Except.error msg => Except.error msg

/-- The record the torch driver produces for one path, read through fs
(meaningful when fs holds data for the path). -/
def torchItemRecord (e : ℚ → ℚ) (st : TorchState) (fs : String → Option Image)
    (p : String) : Record :=
  torchScore e st ((fs p).getD []) p

/-! ## The keras driver (deployment-keras/code/batch_driver.py) -/

/-- Worker state of the keras driver after init: just the loaded model,
a function from image data to logits. -/
structure KerasState where
  model : Image → List ℚ

/-- Deployment environment seen by the keras init: the process
environment variables and the keras load_model step on the joined path
model dir slash model (none when loading fails). -/
structure KerasEnv where
  envVars : String → Option String
  load_model : String → Option (Image → List ℚ)

/-- init of the keras driver: read AZUREML_MODEL_DIR (KeyError when
absent), join the subdirectory named model, load the model (raises on
failure).  No try block: every failure escapes init. -/
def kerasInit (E : KerasEnv) : Except String KerasState :=
  match E.envVars "AZUREML_MODEL_DIR" with
  | none => Except.error "KeyError: AZUREML_MODEL_DIR"
  | some model_dir =>
    match E.load_model (model_dir ++ "/model") with
    | none => Except.error "OSError: load_model failed"
    | some m => Except.ok { model := m }

/-- Per-image body of the keras run loop: apply the model to get the
prediction row, take the class as argmax of the raw prediction and the
probability as the overall maximum of its softmax (tf.reduce_max with no
axis over a single-row batch equals the row maximum). -/
def kerasScore (e : ℚ → ℚ) (st : KerasState) (img : Image) (path : String) : Record :=
  let pred := st.model img
  { file := basename path
    «class» := argmaxIdx pred
    probability := listMax (softmax e pred) }

/-- run of the keras driver: for each path, open the image (PIL raises
on a missing or malformed file, modelled by fs returning none) and
append one record; the first failing open aborts the whole call. -/
def kerasRun (e : ℚ → ℚ) (st : KerasState) (fs : String → Option Image) :
    List String → Except String (List Record)
  | [] => Except.ok []
  | p :: ps =>
    match fs p with
    | none => Except.error ("UnidentifiedImageError: cannot open " ++ p)
    | some img =>
      match kerasRun e st fs ps with
      | Except.ok rs => Except.ok (kerasScore e st img p :: rs)
      | Except.error msg => Except.error msg

/-- The record the keras driver produces for one path, read through fs. -/
def kerasItemRecord (e : ℚ → ℚ) (st : KerasState) (fs : String → Option Image)
    (p : String) : Record :=
  kerasScore e st ((fs p).getD []) p

/-! ## The text-summarization driver (NLP notebook, code/batch_driver.py) -/

/-- The loaded tokenizer: batch_encode_plus on a single text yields its
token ids, batch_decode on a single id sequence yields its text. -/
structure Tokenizer where
  encode : String → List Nat
  decode : List Nat → String

/-- Worker state of the NLP driver after init: tokenizer, the generation
model (model.generate on one id sequence), and the device string. -/
structure NlpState where
  tokenizer : Tokenizer
  model : List Nat → List Nat
  device : String

/-- Deployment environment seen by the NLP init: environment variables,
CUDA availability, the tokenizer loader, the two model loaders (the
device_map auto variant and the plain CPU variant), and the
BetterTransformer conversion. -/
structure NlpEnv where
  envVars : String → Option String
  cudaAvailable : Bool
  loadTokenizer : String → Except String Tokenizer
  loadModelAuto : String → Except String (List Nat → List Nat)
  loadModelCpu : String → Except String (List Nat → List Nat)
  transformBT : (List Nat → List Nat) → Except String (List Nat → List Nat)

/-- init of the NLP driver.  Unlike the other three drivers it guards
model loading with a try block: when from_pretrained with device_map
auto raises, the exception is caught, the model is re-loaded without
device_map and the device is forced to cpu; only a failure of that
fallback (or of the environment lookup or tokenizer load, which are
unguarded) escapes init.  A second try block swallows any failure of
the BetterTransformer conversion, keeping the unoptimized model. -/
def nlpInit (E : NlpEnv) : Except String NlpState :=
  let device0 := if E.cudaAvailable then "cuda" else "cpu"
  match E.envVars "AZUREML_MODEL_DIR" with
  | none => Except.error "KeyError: AZUREML_MODEL_DIR"
  | some model_dir =>
    let model_path := model_dir ++ "/model"
    match E.loadTokenizer model_path with
    | Except.error msg => Except.error msg
    | Except.ok tok =>
      match
        (match E.loadModelAuto model_path with
         | Except.ok m => Except.ok (m, device0)
         | Except.error _ =>
           match E.loadModelCpu model_path with
           | Except.ok m => Except.ok (m, "cpu")
           | Except.error msg => (Except.error msg : Except String ((List Nat → List Nat) × String))) with
      | Except.error msg => Except.error msg
      | Except.ok (m, device) =>
        let m2 :=
          if device ≠ "cpu" then
            match E.transformBT m with
            | Except.ok mb => mb
            | Except.error _ => m
          else m
        Except.ok { tokenizer := tok, model := m2, device := device }

/-- One loop iteration of the NLP run: encode the text, generate, decode;
the appended record is the single decoded summary. -/
def summarizeText (st : NlpState) (text : String) : String :=
  st.tokenizer.decode (st.model (st.tokenizer.encode text))

/-- Reading the text column of every CSV file of the mini-batch, as
load_dataset does: fs maps a path to its list of text rows, none when
the file is missing, malformed, or lacks the text column; the first
failure aborts the whole load. -/
def readCsvFiles (fs : String → Option (List String)) :
    List String → Option (List (List String))
  | [] => some []
  | p :: ps =>
    match fs p with
    | none => none
    | some rows =>
      match readCsvFiles fs ps with
      | none => none
      | some rest => some (rows :: rest)

/-- run of the NLP driver: load_dataset concatenates the text rows of
every file of the mini-batch, then the loop appends one summary per
ROW — not per file.  After the loop, mlflow.log_metric is called on the
variable rps, which is bound inside the loop body: when the loop ran
zero times (no files, or only row-less files), rps is unbound and the
call raises NameError, so a mini-batch with zero total rows raises
instead of returning the empty list. -/
def nlpRun (st : NlpState) (fs : String → Option (List String))
    (mini_batch : List String) : Except String (List String) :=
  match readCsvFiles fs mini_batch with
  | none => Except.error "DatasetGenerationError: load_dataset failed"
  | some rowss =>
    let texts := rowss.flatten
    if texts.isEmpty then Except.error "NameError: name rps is not defined"
    else Except.ok (texts.map (summarizeText st))

/-- The records the NLP driver derives from one input file: one summary
per text row of that file. -/
def nlpFileRecords (st : NlpState) (fs : String → Option (List String))
    (p : String) : List String :=
  ((fs p).getD []).map (summarizeText st)

/-! ## The write-your-own-output parquet driver
(custom-outputs-parquet notebook, code/batch_driver.py) -/

/-- One row of a tabular CSV input, a list of cells. -/
abbrev Row := List ℚ

/-- A tabular file: its list of rows. -/
abbrev Table := List Row

/-- Worker state of the parquet driver after init: the unpickled model
(the end-to-end pipeline, abstracted as its per-row prediction) and the
output directory read from AZUREML_BI_OUTPUT_PATH. -/
structure PqState where
  predictRow : Row → ℚ
  output_path : String

/-- Deployment environment seen by the parquet init: environment
variables, the glob over model_path of the .pkl pattern, and the
pickle.load step on the opened model file. -/
structure PqEnv where
  envVars : String → Option String
  globPkl : String → List String
  loadPickle : String → Option (Row → ℚ)

/-- init of the parquet driver: read AZUREML_BI_OUTPUT_PATH and
AZUREML_MODEL_DIR (KeyError when absent), take the last .pkl glob hit
(IndexError when the glob is empty), unpickle the model (raises on
failure).  No try block: every failure escapes init. -/
def parquetInit (E : PqEnv) : Except String PqState :=
  match E.envVars "AZUREML_BI_OUTPUT_PATH" with
  | none => Except.error "KeyError: AZUREML_BI_OUTPUT_PATH"
  | some output_path =>
    match E.envVars "AZUREML_MODEL_DIR" with
    | none => Except.error "KeyError: AZUREML_MODEL_DIR"
    | some model_path =>
      match (E.globPkl model_path).getLast? with
      | none => Except.error "IndexError: list index out of range"
      | some model_file =>
        match E.loadPickle model_file with
        | none => Except.error "UnpicklingError: pickle.load failed"
        | some m => Except.ok { predictRow := m, output_path := output_path }

/-- The output path the parquet driver writes for one input path: the
output directory joined with the stem of the input file plus the
parquet extension. -/
def pqOutPath (st : PqState) (file_path : String) : String :=
  st.output_path ++ "/" ++ stem file_path ++ ".parquet"

/-- The table the parquet driver writes for one input table: the
original rows with the prediction column appended (model.predict yields
one prediction per row, assigned as the new column). -/
def pqOutTable (st : PqState) (data : Table) : Table :=
  data.map (fun r => r ++ [st.predictRow r])

/-- The write events of one parquet run, in order: for each path, read
the CSV (pandas raises on a missing or malformed file, modelled by fs
returning none) and emit one to_parquet write of the derived table at
the derived path; the first failing read aborts the whole call. -/
def parquetWrites (st : PqState) (fs : String → Option Table) :
    List String → Except String (List (String × Table))
  | [] => Except.ok []
  | p :: ps =>
    match fs p with
    | none => Except.error ("FileNotFoundError: read_csv failed on " ++ p)
    | some data =>
      match parquetWrites st fs ps with
      | Except.ok ws => Except.ok ((pqOutPath st p, pqOutTable st data) :: ws)
      | Except.error msg => Except.error msg

/-- run of the parquet driver: perform the per-item writes and return
the mini-batch itself as the acknowledgment. -/
def parquetRun (st : PqState) (fs : String → Option Table)
    (mini_batch : List String) : Except String (List (String × Table) × List String) :=
  match parquetWrites st fs mini_batch with
  | Except.ok ws => Except.ok (ws, mini_batch)
  | Except.error msg => Except.error msg

/-- One to_parquet call applied to the state of the output directory:
writing replaces any file already at that path. -/
def writeFile (out : String → Option Table) (w : String × Table) :
    String → Option Table :=
  fun x => if x = w.1 then some w.2 else out x

/-- The state of the output directory after a list of write events. -/
def applyWrites (ws : List (String × Table)) (out : String → Option Table) :
    String → Option Table :=
  ws.foldl writeFile out

/-! ## Concrete instances used to exercise the drivers -/

/-- A stand-in for the exponential map with its one relevant property,
positivity: the constant function one. -/
def expOne : ℚ → ℚ := fun _ => 1

/-- A concrete torch worker state: a two-class model. -/
def cexTorchState : TorchState :=
  { model := fun _ => [0, 1], device := "cpu" }

/-- A concrete keras worker state: a two-class model. -/
def cexKerasState : KerasState :=
  { model := fun _ => [0, 1] }

/-- A concrete image store holding the two sample images and nothing
else. -/
def cexImgFs : String → Option Image :=
  fun p => if p = "a.png" then some [1] else if p = "b.png" then some [2] else none

/-- A concrete tokenizer: a text encodes to the one-element sequence of
its length, a sequence decodes to the decimal of its first element. -/
def cexTokenizer : Tokenizer :=
  { encode := fun t => [t.length], decode := fun ids => toString (ids.headD 0) }

/-- A concrete generation model: the identity on token sequences. -/
def cexNlpModel : List Nat → List Nat := fun ids => ids

/-- A concrete NLP worker state. -/
def cexNlpState : NlpState :=
  { tokenizer := cexTokenizer, model := cexNlpModel, device := "cpu" }

/-- A concrete CSV store: one file with two text rows, one file with
zero rows, nothing else. -/
def cexNlpFs : String → Option (List String) :=
  fun p =>
    if p = "reviews.csv" then some ["first text", "second text!"]
    else if p = "empty.csv" then some []
    else none

/-- A concrete NLP deployment environment on which loading the model
with device_map auto raises while the plain CPU load succeeds. -/
def cexNlpEnv : NlpEnv :=
  { envVars := fun v => if v = "AZUREML_MODEL_DIR" then some "/var/azureml-app/azureml-models/bart" else none
    cudaAvailable := true
    loadTokenizer := fun _ => Except.ok cexTokenizer
    loadModelAuto := fun _ => Except.error "CUDA error: out of memory"
    loadModelCpu := fun _ => Except.ok cexNlpModel
    transformBT := fun m => Except.ok m }

/-- A concrete parquet deployment environment. -/
def cexPqEnv : PqEnv :=
  { envVars := fun v =>
      if v = "AZUREML_BI_OUTPUT_PATH" then some "named-outputs/score"
      else if v = "AZUREML_MODEL_DIR" then some "/var/model"
      else none
    globPkl := fun _ => ["/var/model/1/model.pkl"]
    loadPickle := fun _ => some (fun r => r.sum) }

/-- The parquet worker state cexPqEnv initializes to. -/
def cexPqState : PqState :=
  { predictRow := fun r => r.sum, output_path := "named-outputs/score" }

/-- A concrete CSV table store with two files of equal stem in different
directories. -/
def cexCsvFs : String → Option Table :=
  fun p =>
    if p = "folder1/data.csv" then some [[1, 2], [3, 4]]
    else if p = "folder2/data.csv" then some [[5, 6]]
    else none

/-- A concrete image store with the same image name in two directories. -/
def cexImgFsDirs : String → Option Image :=
  fun p =>
    if p = "inputs/setA/img.png" then some [1]
    else if p = "inputs/setB/img.png" then some [2]
    else none

/-- A concrete torch deployment environment whose weights file cannot be
loaded. -/
def cexTorchEnvBad : TorchEnv :=
  { envVars := fun v => if v = "AZUREML_MODEL_DIR" then some "/var/model" else none
    globPt := fun _ => ["/var/model/1/weights.pt"]
    loadStateDict := fun _ => none
    cudaAvailable := false }

/-- A concrete keras deployment environment whose model cannot be
loaded. -/
def cexKerasEnvBad : KerasEnv :=
  { envVars := fun v => if v = "AZUREML_MODEL_DIR" then some "/var/model" else none
    load_model := fun _ => none }

/-- A concrete parquet deployment environment whose pickle cannot be
loaded. -/
def cexPqEnvBad : PqEnv :=
  { envVars := cexPqEnv.envVars
    globPkl := fun _ => ["/var/model/1/model.pkl"]
    loadPickle := fun _ => none }

/-- A concrete NLP deployment environment on which both model loads
raise. -/
def cexNlpEnvBad : NlpEnv :=
  { cexNlpEnv with
      loadModelAuto := fun _ => Except.error "OSError: model load failed"
      loadModelCpu := fun _ => Except.error "OSError: model load failed on cpu" }

/-! ## Helper lemmas -/

/-- takeWhile passes over a prefix it accepts wholesale. -/
theorem takeWhile_append_of_all {α : Type} (p : α → Bool) (l1 l2 : List α)
    (h : ∀ a ∈ l1, p a = true) :
    (l1 ++ l2).takeWhile p = l1 ++ l2.takeWhile p := by
  induction l1 with
  | nil => simp
  | cons x xs ih =>
    have hx : p x = true := h x (List.mem_cons_self x xs)
    simp [List.takeWhile_cons, hx,
      ih (fun a ha => h a (List.mem_cons_of_mem x ha))]

/-- basename strips any directory prefix from a slash-free name. -/
theorem basename_append (d nm : String) (h : ∀ c ∈ nm.toList, c ≠ '/') :
    basename (d ++ "/" ++ nm) = nm := by
  have hdata : (d ++ "/" ++ nm).data = d.data ++ ('/' :: nm.data) := by
    rw [String.data_append, String.data_append, List.append_assoc]
    rfl
  have hall : ∀ c ∈ nm.data.reverse, (fun c => decide (c ≠ '/')) c = true := by
    intro c hc
    simpa using h c (List.mem_reverse.mp hc)
  show String.mk (basenameList (d ++ "/" ++ nm).data) = nm
  rw [basenameList, hdata]
  rw [List.reverse_append, List.reverse_cons]
  rw [show nm.data.reverse ++ ['/'] ++ d.data.reverse
        = nm.data.reverse ++ ('/' :: d.data.reverse) by simp]
  rw [takeWhile_append_of_all _ _ _ hall]
  have hstop : List.takeWhile (fun c => decide (c ≠ '/')) ('/' :: d.data.reverse) = [] := by
    simp [List.takeWhile_cons]
  rw [hstop, List.append_nil, List.reverse_reverse]

/-- A fold of max stays among the seed and the list. -/
theorem foldl_max_mem (xs : List ℚ) : ∀ a : ℚ, xs.foldl max a ∈ a :: xs := by
  induction xs with
  | nil => intro a; simp
  | cons x xs ih =>
    intro a
    have h : (x :: xs).foldl max a = xs.foldl max (max a x) := rfl
    rw [h]
    rcases List.mem_cons.mp (ih (max a x)) with h3 | h3
    · rw [h3]
      rcases max_choice a x with hm | hm <;> rw [hm] <;> simp
    · exact List.mem_cons_of_mem a (List.mem_cons_of_mem x h3)

/-- The maximum of a nonempty list is one of its elements. -/
theorem listMax_mem (xs : List ℚ) (h : xs ≠ []) : listMax xs ∈ xs := by
  match xs with
  | [] => exact absurd rfl h
  | x :: xs => exact foldl_max_mem xs x

/-- The argmax accumulator yields an index below the running bound. -/
theorem argmaxAux_lt (xs : List ℚ) : ∀ (i bi : Nat) (bv : ℚ), bi < i →
    argmaxAux xs i bi bv < i + xs.length := by
  induction xs with
  | nil =>
    intro i bi bv h
    simpa [argmaxAux] using h
  | cons x xs ih =>
    intro i bi bv h
    simp only [argmaxAux]
    split
    · have hrec := ih (i + 1) i x (Nat.lt_succ_self i)
      simpa [Nat.add_comm, Nat.add_left_comm] using hrec
    · have hrec := ih (i + 1) bi bv (Nat.lt_succ_of_lt h)
      simpa [Nat.add_comm, Nat.add_left_comm] using hrec

/-- The argmax of a nonempty list is a valid index into it. -/
theorem argmaxIdx_lt (xs : List ℚ) (h : xs ≠ []) : argmaxIdx xs < xs.length := by
  match xs with
  | [] => exact absurd rfl h
  | x :: xs =>
    have hrec := argmaxAux_lt xs 1 0 x Nat.zero_lt_one
    simpa [argmaxIdx, Nat.add_comm] using hrec

/-- Softmax preserves the length of the logits. -/
theorem softmax_length (e : ℚ → ℚ) (xs : List ℚ) :
    (softmax e xs).length = xs.length := by
  simp [softmax]

/-- Softmax of a nonempty list is nonempty. -/
theorem softmax_ne_nil (e : ℚ → ℚ) (xs : List ℚ) (h : xs ≠ []) :
    softmax e xs ≠ [] := by
  simpa [softmax]

/-- With a positive exponential map, every softmax entry lies in the
closed unit interval. -/
theorem softmax_mem_bounds (e : ℚ → ℚ) (he : ∀ x, 0 < e x) (xs : List ℚ)
    (hxs : xs ≠ []) : ∀ y ∈ softmax e xs, 0 ≤ y ∧ y ≤ 1 := by
  intro y hy
  simp only [softmax, List.mem_map] at hy
  obtain ⟨x, hx, rfl⟩ := hy
  have hs : 0 < (xs.map e).sum := by
    apply List.sum_pos
    · intro z hz
      obtain ⟨w, _, rfl⟩ := List.mem_map.mp hz
      exact he w
    · simpa using hxs
  have hle : e x ≤ (xs.map e).sum := by
    apply List.single_le_sum
    · intro z hz
      obtain ⟨w, _, rfl⟩ := List.mem_map.mp hz
      exact (he w).le
    · exact List.mem_map_of_mem e hx
  exact ⟨(div_pos (he x) hs).le, (div_le_one hs).mpr hle⟩

/-- The maximum of a nonempty list of unit-interval values is in the
unit interval. -/
theorem listMax_bounds (l : List ℚ) (hl : l ≠ []) (h : ∀ y ∈ l, 0 ≤ y ∧ y ≤ 1) :
    0 ≤ listMax l ∧ listMax l ≤ 1 :=
  h (listMax l) (listMax_mem l hl)

/-- On an all-valid mini-batch the torch run is the per-item map. -/
theorem torchRun_eq_map (e : ℚ → ℚ) (st : TorchState) (fs : String → Option Image)
    (mb : List String) (hv : ∀ p ∈ mb, (fs p).isSome = true) :
    torchRun e st fs mb = Except.ok (mb.map (torchItemRecord e st fs)) := by
  induction mb with
  | nil => rfl
  | cons p ps ih =>
    obtain ⟨img, himg⟩ :=
      Option.isSome_iff_exists.mp (hv p (List.mem_cons_self p ps))
    have hps := ih (fun q hq => hv q (List.mem_cons_of_mem p hq))
    simp [torchRun, himg, hps, torchItemRecord]

/-- On an all-valid mini-batch the keras run is the per-item map. -/
theorem kerasRun_eq_map (e : ℚ → ℚ) (st : KerasState) (fs : String → Option Image)
    (mb : List String) (hv : ∀ p ∈ mb, (fs p).isSome = true) :
    kerasRun e st fs mb = Except.ok (mb.map (kerasItemRecord e st fs)) := by
  induction mb with
  | nil => rfl
  | cons p ps ih =>
    obtain ⟨img, himg⟩ :=
      Option.isSome_iff_exists.mp (hv p (List.mem_cons_self p ps))
    have hps := ih (fun q hq => hv q (List.mem_cons_of_mem p hq))
    simp [kerasRun, himg, hps, kerasItemRecord]

/-- On an all-valid mini-batch the parquet write trace is the per-item
map. -/
theorem parquetWrites_eq_map (st : PqState) (fs : String → Option Table)
    (mb : List String) (hv : ∀ p ∈ mb, (fs p).isSome = true) :
    parquetWrites st fs mb
      = Except.ok (mb.map (fun p => (pqOutPath st p, pqOutTable st ((fs p).getD [])))) := by
  induction mb with
  | nil => rfl
  | cons p ps ih =>
    obtain ⟨data, hdata⟩ :=
      Option.isSome_iff_exists.mp (hv p (List.mem_cons_self p ps))
    have hps := ih (fun q hq => hv q (List.mem_cons_of_mem p hq))
    simp [parquetWrites, hdata, hps]

/-- On an all-valid mini-batch the CSV load is the per-file map. -/
theorem readCsvFiles_eq_map (fs : String → Option (List String))
    (mb : List String) (hv : ∀ p ∈ mb, (fs p).isSome = true) :
    readCsvFiles fs mb = some (mb.map (fun p => (fs p).getD [])) := by
  induction mb with
  | nil => rfl
  | cons p ps ih =>
    obtain ⟨rows, hrows⟩ :=
      Option.isSome_iff_exists.mp (hv p (List.mem_cons_self p ps))
    have hps := ih (fun q hq => hv q (List.mem_cons_of_mem p hq))
    simp [readCsvFiles, hrows, hps]

/-- On an all-valid mini-batch with at least one text row overall, the
NLP run returns the concatenation of the per-file record lists. -/
theorem nlpRun_eq_flatten (st : NlpState) (fs : String → Option (List String))
    (mb : List String) (hv : ∀ p ∈ mb, (fs p).isSome = true)
    (hne : (mb.map (fun p => (fs p).getD [])).flatten ≠ []) :
    nlpRun st fs mb = Except.ok ((mb.map (nlpFileRecords st fs)).flatten) := by
  have h1 := readCsvFiles_eq_map fs mb hv
  simp only [nlpRun, h1]
  rw [if_neg (by simpa [List.isEmpty_iff] using hne)]
  rw [List.map_flatten, List.map_map]
  rfl

/-- A bad item anywhere makes the torch run raise. -/
theorem torchRun_error_of_bad (e : ℚ → ℚ) (st : TorchState)
    (fs : String → Option Image) (mb : List String)
    (h : ∃ p ∈ mb, fs p = none) :
    ∃ msg, torchRun e st fs mb = Except.error msg := by
  induction mb with
  | nil =>
    obtain ⟨p, hp, _⟩ := h
    exact absurd hp (List.not_mem_nil p)
  | cons q ps ih =>
    obtain ⟨p, hp, hnone⟩ := h
    rcases List.mem_cons.mp hp with rfl | hps
    · exact ⟨"RuntimeError: read_image failed on " ++ p, by simp [torchRun, hnone]⟩
    · cases hq : fs q with
      | none => exact ⟨"RuntimeError: read_image failed on " ++ q, by simp [torchRun, hq]⟩
      | some img =>
        obtain ⟨msg, hmsg⟩ := ih ⟨p, hps, hnone⟩
        exact ⟨msg, by simp [torchRun, hq, hmsg]⟩

/-- A bad item anywhere makes the keras run raise. -/
theorem kerasRun_error_of_bad (e : ℚ → ℚ) (st : KerasState)
    (fs : String → Option Image) (mb : List String)
    (h : ∃ p ∈ mb, fs p = none) :
    ∃ msg, kerasRun e st fs mb = Except.error msg := by
  induction mb with
  | nil =>
    obtain ⟨p, hp, _⟩ := h
    exact absurd hp (List.not_mem_nil p)
  | cons q ps ih =>
    obtain ⟨p, hp, hnone⟩ := h
    rcases List.mem_cons.mp hp with rfl | hps
    · exact ⟨"UnidentifiedImageError: cannot open " ++ p, by simp [kerasRun, hnone]⟩
    · cases hq : fs q with
      | none => exact ⟨"UnidentifiedImageError: cannot open " ++ q, by simp [kerasRun, hq]⟩
      | some img =>
        obtain ⟨msg, hmsg⟩ := ih ⟨p, hps, hnone⟩
        exact ⟨msg, by simp [kerasRun, hq, hmsg]⟩

/-- A bad item anywhere makes the parquet run raise. -/
theorem parquetRun_error_of_bad (st : PqState) (fs : String → Option Table)
    (mb : List String) (h : ∃ p ∈ mb, fs p = none) :
    ∃ msg, parquetRun st fs mb = Except.error msg := by
  have hw : ∃ msg, parquetWrites st fs mb = Except.error msg := by
    induction mb with
    | nil =>
      obtain ⟨p, hp, _⟩ := h
      exact absurd hp (List.not_mem_nil p)
    | cons q ps ih =>
      obtain ⟨p, hp, hnone⟩ := h
      rcases List.mem_cons.mp hp with rfl | hps
      · exact ⟨"FileNotFoundError: read_csv failed on " ++ p, by simp [parquetWrites, hnone]⟩
      · cases hq : fs q with
        | none => exact ⟨"FileNotFoundError: read_csv failed on " ++ q, by simp [parquetWrites, hq]⟩
        | some data =>
          obtain ⟨msg, hmsg⟩ := ih ⟨p, hps, hnone⟩
          exact ⟨msg, by simp [parquetWrites, hq, hmsg]⟩
  obtain ⟨msg, hmsg⟩ := hw
  exact ⟨msg, by simp [parquetRun, hmsg]⟩

/-- A bad file anywhere makes the CSV load fail. -/
theorem readCsvFiles_none_of_bad (fs : String → Option (List String))
    (mb : List String) (h : ∃ p ∈ mb, fs p = none) :
    readCsvFiles fs mb = none := by
  induction mb with
  | nil =>
    obtain ⟨p, hp, _⟩ := h
    exact absurd hp (List.not_mem_nil p)
  | cons q ps ih =>
    obtain ⟨p, hp, hnone⟩ := h
    rcases List.mem_cons.mp hp with rfl | hps
    · simp [readCsvFiles, hnone]
    · cases hq : fs q with
      | none => simp [readCsvFiles, hq]
      | some rows => simp [readCsvFiles, hq, ih ⟨p, hps, hnone⟩]

/-- A bad file anywhere makes the NLP run raise. -/
theorem nlpRun_error_of_bad (st : NlpState) (fs : String → Option (List String))
    (mb : List String) (h : ∃ p ∈ mb, fs p = none) :
    ∃ msg, nlpRun st fs mb = Except.error msg :=
  ⟨"DatasetGenerationError: load_dataset failed",
    by simp [nlpRun, readCsvFiles_none_of_bad fs mb h]⟩

/-- Properties of one torch record: probability in the unit interval,
class a valid index into the model output, file the basename. -/
theorem torchScore_props (e : ℚ → ℚ) (he : ∀ x, 0 < e x) (st : TorchState)
    (img : Image) (path : String) (hm : st.model img ≠ []) :
    0 ≤ (torchScore e st img path).probability ∧
    (torchScore e st img path).probability ≤ 1 ∧
    (torchScore e st img path).«class» < (st.model img).length ∧
    (torchScore e st img path).file = basename path := by
  have hne := softmax_ne_nil e (st.model img) hm
  have hb := listMax_bounds (softmax e (st.model img)) hne
    (softmax_mem_bounds e he (st.model img) hm)
  refine ⟨hb.1, hb.2, ?_, rfl⟩
  have := argmaxIdx_lt (softmax e (st.model img)) hne
  rwa [softmax_length] at this

/-- Properties of one keras record: probability in the unit interval,
class a valid index into the model output, file the basename. -/
theorem kerasScore_props (e : ℚ → ℚ) (he : ∀ x, 0 < e x) (st : KerasState)
    (img : Image) (path : String) (hm : st.model img ≠ []) :
    0 ≤ (kerasScore e st img path).probability ∧
    (kerasScore e st img path).probability ≤ 1 ∧
    (kerasScore e st img path).«class» < (st.model img).length ∧
    (kerasScore e st img path).file = basename path := by
  have hne := softmax_ne_nil e (st.model img) hm
  have hb := listMax_bounds (softmax e (st.model img)) hne
    (softmax_mem_bounds e he (st.model img) hm)
  exact ⟨hb.1, hb.2, argmaxIdx_lt (st.model img) hm, rfl⟩

/-! ## The claims -/

/-- C4 (amended): the torch, keras and parquet drivers return an empty
result (and, for the parquet driver, an empty write trace) on the empty
mini-batch without raising; the text-summarization driver raises on the
empty mini-batch, because with zero loop iterations the rows-per-second
variable passed to mlflow.log_metric is unbound (and load_dataset
already rejects an empty data_files list). -/
theorem empty_batch_behavior_per_driver :
    (∀ (e : ℚ → ℚ) (st : TorchState) (fs : String → Option Image),
       torchRun e st fs [] = Except.ok []) ∧
    (∀ (e : ℚ → ℚ) (st : KerasState) (fs : String → Option Image),
       kerasRun e st fs [] = Except.ok []) ∧
    (∀ (st : PqState) (fs : String → Option Table),
       parquetRun st fs [] = Except.ok ([], [])) ∧
    (∀ (st : NlpState) (fs : String → Option (List String)),
       nlpRun st fs [] = Except.error "NameError: name rps is not defined") :=
  ⟨fun _ _ _ => rfl, fun _ _ _ => rfl, fun _ _ => rfl, fun _ _ => rfl⟩

/-- C4 counterexample: on a concrete NLP worker, the empty mini-batch
raises instead of returning the empty result sequence, refuting the
claim that every scoring driver returns an empty result without error. -/
theorem nlp_run_raises_on_empty_batch :
    nlpRun cexNlpState cexNlpFs [] = Except.error "NameError: name rps is not defined" :=
  rfl

/-- C5: in every driver, a mini-batch containing an item whose data
cannot be loaded makes run raise for the whole mini-batch; no driver
skips the offending item, so no partial result sequence is ever
returned. -/
theorem bad_item_fails_whole_batch :
    (∀ (e : ℚ → ℚ) (st : TorchState) (fs : String → Option Image) (mb : List String),
       (∃ p ∈ mb, fs p = none) → ∃ msg, torchRun e st fs mb = Except.error msg) ∧
    (∀ (e : ℚ → ℚ) (st : KerasState) (fs : String → Option Image) (mb : List String),
       (∃ p ∈ mb, fs p = none) → ∃ msg, kerasRun e st fs mb = Except.error msg) ∧
    (∀ (st : PqState) (fs : String → Option Table) (mb : List String),
       (∃ p ∈ mb, fs p = none) → ∃ msg, parquetRun st fs mb = Except.error msg) ∧
    (∀ (st : NlpState) (fs : String → Option (List String)) (mb : List String),
       (∃ p ∈ mb, fs p = none) → ∃ msg, nlpRun st fs mb = Except.error msg) :=
  ⟨torchRun_error_of_bad, kerasRun_error_of_bad,
   parquetRun_error_of_bad, nlpRun_error_of_bad⟩

/-- C5 witness: concrete mini-batches with one unreadable item fail
whole in all four drivers. -/
theorem bad_item_fails_whole_batch_witness :
    (∃ msg, torchRun expOne cexTorchState cexImgFs ["a.png", "ghost.png"]
       = Except.error msg) ∧
    (∃ msg, kerasRun expOne cexKerasState cexImgFs ["a.png", "ghost.png"]
       = Except.error msg) ∧
    (∃ msg, parquetRun cexPqState cexCsvFs ["folder1/data.csv", "missing.csv"]
       = Except.error msg) ∧
    (∃ msg, nlpRun cexNlpState cexNlpFs ["reviews.csv", "missing.csv"]
       = Except.error msg) :=
  ⟨bad_item_fails_whole_batch.1 expOne cexTorchState cexImgFs _
     ⟨"ghost.png", by decide, by decide⟩,
   bad_item_fails_whole_batch.2.1 expOne cexKerasState cexImgFs _
     ⟨"ghost.png", by decide, by decide⟩,
   bad_item_fails_whole_batch.2.2.1 cexPqState cexCsvFs _
     ⟨"missing.csv", by decide, by decide⟩,
   bad_item_fails_whole_batch.2.2.2 cexNlpState cexNlpFs _
     ⟨"missing.csv", by decide, by decide⟩⟩

/-- C6 (amended): in the torch, keras and parquet drivers, a failing
model load makes init raise, with no catching; in the NLP driver a
failure of the device_map auto model load is caught and the load is
retried on CPU, so init raises only when the fallback load also fails
(the raised error is the fallback's). -/
theorem init_error_propagation_per_driver :
    (∀ (E : TorchEnv) (mp mf : String),
       E.envVars "AZUREML_MODEL_DIR" = some mp →
       (E.globPt mp).getLast? = some mf →
       E.loadStateDict mf = none →
       torchInit E = Except.error "RuntimeError: torch.load failed") ∧
    (∀ (E : KerasEnv) (mp : String),
       E.envVars "AZUREML_MODEL_DIR" = some mp →
       E.load_model (mp ++ "/model") = none →
       kerasInit E = Except.error "OSError: load_model failed") ∧
    (∀ (E : PqEnv) (op mp mf : String),
       E.envVars "AZUREML_BI_OUTPUT_PATH" = some op →
       E.envVars "AZUREML_MODEL_DIR" = some mp →
       (E.globPkl mp).getLast? = some mf →
       E.loadPickle mf = none →
       parquetInit E = Except.error "UnpicklingError: pickle.load failed") ∧
    (∀ (E : NlpEnv) (mp : String) (tok : Tokenizer) (m1 m2 : String),
       E.envVars "AZUREML_MODEL_DIR" = some mp →
       E.loadTokenizer (mp ++ "/model") = Except.ok tok →
       E.loadModelAuto (mp ++ "/model") = Except.error m1 →
       E.loadModelCpu (mp ++ "/model") = Except.error m2 →
       nlpInit E = Except.error m2) := by
  refine ⟨?_, ?_, ?_, ?_⟩ <;> intros <;>
    simp_all [torchInit, kerasInit, parquetInit, nlpInit]

/-- C6 witness: concrete deployment environments with failing loads make
every init raise as the amended claim states. -/
theorem init_error_propagation_per_driver_witness :
    torchInit cexTorchEnvBad = Except.error "RuntimeError: torch.load failed" ∧
    kerasInit cexKerasEnvBad = Except.error "OSError: load_model failed" ∧
    parquetInit cexPqEnvBad = Except.error "UnpicklingError: pickle.load failed" ∧
    nlpInit cexNlpEnvBad = Except.error "OSError: model load failed on cpu" :=
  ⟨init_error_propagation_per_driver.1 cexTorchEnvBad "/var/model"
     "/var/model/1/weights.pt" rfl rfl rfl,
   init_error_propagation_per_driver.2.1 cexKerasEnvBad "/var/model" rfl rfl,
   init_error_propagation_per_driver.2.2.1 cexPqEnvBad "named-outputs/score"
     "/var/model" "/var/model/1/model.pkl" rfl rfl rfl rfl,
   init_error_propagation_per_driver.2.2.2 cexNlpEnvBad
     "/var/azureml-app/azureml-models/bart" cexTokenizer
     "OSError: model load failed" "OSError: model load failed on cpu"
     rfl rfl rfl rfl⟩

/-- C6 counterexample: on a concrete NLP deployment environment, the
exception raised while loading the model with device_map auto does NOT
propagate out of init: init catches it, retries on CPU and succeeds,
refuting the claim that no driver ever catches an init error. -/
theorem nlp_init_catches_model_load_error :
    cexNlpEnv.loadModelAuto "/var/azureml-app/azureml-models/bart/model"
      = Except.error "CUDA error: out of memory" ∧
    nlpInit cexNlpEnv = Except.ok cexNlpState :=
  ⟨rfl, rfl⟩

/-- C1 (amended): on an all-valid mini-batch of N items, the torch and
keras drivers return exactly N result records and the parquet driver
performs exactly N writes and returns the N input paths as
acknowledgment; the text-summarization driver instead returns one
record per CSV text row, so its record count is the total row count of
the N files, which equals N only when every file holds exactly one
row. -/
theorem run_record_counts_per_driver :
    (∀ (e : ℚ → ℚ) (st : TorchState) (fs : String → Option Image) (mb : List String),
       (∀ p ∈ mb, (fs p).isSome = true) →
       ∃ rs, torchRun e st fs mb = Except.ok rs ∧ rs.length = mb.length) ∧
    (∀ (e : ℚ → ℚ) (st : KerasState) (fs : String → Option Image) (mb : List String),
       (∀ p ∈ mb, (fs p).isSome = true) →
       ∃ rs, kerasRun e st fs mb = Except.ok rs ∧ rs.length = mb.length) ∧
    (∀ (st : PqState) (fs : String → Option Table) (mb : List String),
       (∀ p ∈ mb, (fs p).isSome = true) →
       ∃ ws, parquetRun st fs mb = Except.ok (ws, mb) ∧ ws.length = mb.length) ∧
    (∀ (st : NlpState) (fs : String → Option (List String)) (mb : List String),
       (∀ p ∈ mb, (fs p).isSome = true) →
       (mb.map (fun p => (fs p).getD [])).flatten ≠ [] →
       ∃ rs, nlpRun st fs mb = Except.ok rs ∧
         rs.length = (mb.map (fun p => ((fs p).getD []).length)).sum) := by
  refine ⟨?_, ?_, ?_, ?_⟩
  · intro e st fs mb hv
    exact ⟨_, torchRun_eq_map e st fs mb hv, by simp⟩
  · intro e st fs mb hv
    exact ⟨_, kerasRun_eq_map e st fs mb hv, by simp⟩
  · intro st fs mb hv
    refine ⟨mb.map (fun p => (pqOutPath st p, pqOutTable st ((fs p).getD []))),
      ?_, by simp⟩
    simp [parquetRun, parquetWrites_eq_map st fs mb hv]
  · intro st fs mb hv hne
    refine ⟨_, nlpRun_eq_flatten st fs mb hv hne, ?_⟩
    have hfun : (List.length ∘ nlpFileRecords st fs)
        = fun p => ((fs p).getD []).length := by
      funext p
      simp [Function.comp, nlpFileRecords]
    simp only [List.length_flatten, List.map_map, hfun]

/-- C1 witness: concrete all-valid mini-batches realize the stated
counts in all four drivers. -/
theorem run_record_counts_per_driver_witness :
    (∃ rs, torchRun expOne cexTorchState cexImgFs ["a.png", "b.png"]
       = Except.ok rs ∧ rs.length = 2) ∧
    (∃ rs, kerasRun expOne cexKerasState cexImgFs ["a.png", "b.png"]
       = Except.ok rs ∧ rs.length = 2) ∧
    (∃ ws, parquetRun cexPqState cexCsvFs ["folder1/data.csv", "folder2/data.csv"]
       = Except.ok (ws, ["folder1/data.csv", "folder2/data.csv"]) ∧ ws.length = 2) ∧
    (∃ rs, nlpRun cexNlpState cexNlpFs ["reviews.csv"] = Except.ok rs ∧ rs.length = 2) :=
  ⟨run_record_counts_per_driver.1 expOne cexTorchState cexImgFs
     ["a.png", "b.png"] (by decide),
   run_record_counts_per_driver.2.1 expOne cexKerasState cexImgFs
     ["a.png", "b.png"] (by decide),
   run_record_counts_per_driver.2.2.1 cexPqState cexCsvFs
     ["folder1/data.csv", "folder2/data.csv"] (by decide),
   run_record_counts_per_driver.2.2.2 cexNlpState cexNlpFs
     ["reviews.csv"] (by decide) (by decide)⟩

/-- C1 counterexample: a mini-batch of one valid CSV file with two text
rows makes the text-summarization run return two result records, not
one record per input item, refuting the claim for that driver. -/
theorem nlp_run_two_records_for_one_file :
    cexNlpFs "reviews.csv" = some ["first text", "second text!"] ∧
    nlpRun cexNlpState cexNlpFs ["reviews.csv"] = Except.ok ["10", "12"] ∧
    (2 : Nat) ≠ 1 :=
  ⟨rfl, rfl, by decide⟩

/-- C2: in write-your-own-output mode, run writes one parquet file per
input item at the path obtained by joining the output directory read
from AZUREML_BI_OUTPUT_PATH with the input's stem plus the parquet
extension, each written table being the original rows with one added
prediction column, and returns the original input paths as the
acknowledgment. -/
theorem parquet_run_writes_and_acknowledges (E : PqEnv) (st : PqState)
    (hinit : parquetInit E = Except.ok st)
    (fs : String → Option Table) (mb : List String)
    (hv : ∀ p ∈ mb, (fs p).isSome = true) :
    E.envVars "AZUREML_BI_OUTPUT_PATH" = some st.output_path ∧
    parquetRun st fs mb
      = Except.ok
          (mb.map (fun p => (pqOutPath st p, pqOutTable st ((fs p).getD []))), mb) ∧
    (∀ p ∈ mb,
       pqOutPath st p = st.output_path ++ "/" ++ stem p ++ ".parquet" ∧
       pqOutTable st ((fs p).getD [])
         = ((fs p).getD []).map (fun r => r ++ [st.predictRow r])) := by
  refine ⟨?_, ?_, ?_⟩
  · cases h1 : E.envVars "AZUREML_BI_OUTPUT_PATH" with
    | none => simp [parquetInit, h1] at hinit
    | some op =>
      cases h2 : E.envVars "AZUREML_MODEL_DIR" with
      | none => simp [parquetInit, h1, h2] at hinit
      | some mp =>
        cases h3 : (E.globPkl mp).getLast? with
        | none => simp [parquetInit, h1, h2, h3] at hinit
        | some mf =>
          cases h4 : E.loadPickle mf with
          | none => simp [parquetInit, h1, h2, h3, h4] at hinit
          | some m =>
            simp only [parquetInit, h1, h2, h3, h4, Except.ok.injEq] at hinit
            rw [← hinit]
  · simp [parquetRun, parquetWrites_eq_map st fs mb hv]
  · intro p hp
    exact ⟨rfl, rfl⟩

/-- C2 witness: a concrete environment and two concrete tabular inputs
realize the write-mode contract. -/
theorem parquet_run_writes_and_acknowledges_witness :
    cexPqEnv.envVars "AZUREML_BI_OUTPUT_PATH" = some cexPqState.output_path ∧
    parquetRun cexPqState cexCsvFs ["folder1/data.csv", "folder2/data.csv"]
      = Except.ok
          (["folder1/data.csv", "folder2/data.csv"].map
             (fun p => (pqOutPath cexPqState p, pqOutTable cexPqState ((cexCsvFs p).getD []))),
           ["folder1/data.csv", "folder2/data.csv"]) ∧
    (∀ p ∈ ["folder1/data.csv", "folder2/data.csv"],
       pqOutPath cexPqState p
         = cexPqState.output_path ++ "/" ++ stem p ++ ".parquet" ∧
       pqOutTable cexPqState ((cexCsvFs p).getD [])
         = ((cexCsvFs p).getD []).map (fun r => r ++ [cexPqState.predictRow r])) :=
  parquet_run_writes_and_acknowledges cexPqEnv cexPqState rfl cexCsvFs
    ["folder1/data.csv", "folder2/data.csv"] (by decide)

/-- C3: on the mini-batch of the two image paths a.png and b.png, both
image drivers return exactly two records whose file fields are the two
names, whose probability (the maximum of the softmax of the model
output) lies in the closed unit interval, and whose class is a valid
index into the model's output dimensionality. -/
theorem image_classifier_two_image_scenario (e : ℚ → ℚ) (he : ∀ x, 0 < e x)
    (st : TorchState) (kst : KerasState) (fs : String → Option Image)
    (imgA imgB : Image)
    (ha : fs "a.png" = some imgA) (hb : fs "b.png" = some imgB)
    (hta : st.model imgA ≠ []) (htb : st.model imgB ≠ [])
    (hka : kst.model imgA ≠ []) (hkb : kst.model imgB ≠ []) :
    (∃ r1 r2, torchRun e st fs ["a.png", "b.png"] = Except.ok [r1, r2] ∧
       r1.file = "a.png" ∧ r2.file = "b.png" ∧
       0 ≤ r1.probability ∧ r1.probability ≤ 1 ∧
       r1.«class» < (st.model imgA).length ∧
       0 ≤ r2.probability ∧ r2.probability ≤ 1 ∧
       r2.«class» < (st.model imgB).length) ∧
    (∃ r1 r2, kerasRun e kst fs ["a.png", "b.png"] = Except.ok [r1, r2] ∧
       r1.file = "a.png" ∧ r2.file = "b.png" ∧
       0 ≤ r1.probability ∧ r1.probability ≤ 1 ∧
       r1.«class» < (kst.model imgA).length ∧
       0 ≤ r2.probability ∧ r2.probability ≤ 1 ∧
       r2.«class» < (kst.model imgB).length) := by
  obtain ⟨hta0, hta1, hta2, hta3⟩ := torchScore_props e he st imgA "a.png" hta
  obtain ⟨htb0, htb1, htb2, htb3⟩ := torchScore_props e he st imgB "b.png" htb
  obtain ⟨hka0, hka1, hka2, hka3⟩ := kerasScore_props e he kst imgA "a.png" hka
  obtain ⟨hkb0, hkb1, hkb2, hkb3⟩ := kerasScore_props e he kst imgB "b.png" hkb
  constructor
  · refine ⟨torchScore e st imgA "a.png", torchScore e st imgB "b.png", ?_,
      ?_, ?_, hta0, hta1, hta2, htb0, htb1, htb2⟩
    · simp [torchRun, ha, hb]
    · rw [hta3]; rfl
    · rw [htb3]; rfl
  · refine ⟨kerasScore e kst imgA "a.png", kerasScore e kst imgB "b.png", ?_,
      ?_, ?_, hka0, hka1, hka2, hkb0, hkb1, hkb2⟩
    · simp [kerasRun, ha, hb]
    · rw [hka3]; rfl
    · rw [hkb3]; rfl

/-- C3 witness: a two-class model on the two sample images realizes the
scenario. -/
theorem image_classifier_two_image_scenario_witness :
    (∃ r1 r2, torchRun expOne cexTorchState cexImgFs ["a.png", "b.png"]
       = Except.ok [r1, r2] ∧
       r1.file = "a.png" ∧ r2.file = "b.png" ∧
       0 ≤ r1.probability ∧ r1.probability ≤ 1 ∧
       r1.«class» < (cexTorchState.model [1]).length ∧
       0 ≤ r2.probability ∧ r2.probability ≤ 1 ∧
       r2.«class» < (cexTorchState.model [2]).length) ∧
    (∃ r1 r2, kerasRun expOne cexKerasState cexImgFs ["a.png", "b.png"]
       = Except.ok [r1, r2] ∧
       r1.file = "a.png" ∧ r2.file = "b.png" ∧
       0 ≤ r1.probability ∧ r1.probability ≤ 1 ∧
       r1.«class» < (cexKerasState.model [1]).length ∧
       0 ≤ r2.probability ∧ r2.probability ≤ 1 ∧
       r2.«class» < (cexKerasState.model [2]).length) :=
  image_classifier_two_image_scenario expOne (fun _ => one_pos)
    cexTorchState cexKerasState cexImgFs [1] [2] rfl rfl
    (by decide) (by decide) (by decide) (by decide)

/-- C7: processing is invariant under re-partitioning of the input into
mini-batches: the torch run over any concatenation of two all-valid
mini-batches is the concatenation of their per-item records and each
mini-batch alone yields exactly its own per-item records, each record a
function of the item only and the state established by init; the NLP
run over any all-valid mini-batch with at least one text row is the
concatenation of its per-file record lists, each a function of the file
only and the init state. -/
theorem run_invariant_under_repartitioning :
    (∀ (e : ℚ → ℚ) (st : TorchState) (fs : String → Option Image) (b1 b2 : List String),
       (∀ p ∈ b1, (fs p).isSome = true) → (∀ p ∈ b2, (fs p).isSome = true) →
       torchRun e st fs (b1 ++ b2)
         = Except.ok (b1.map (torchItemRecord e st fs) ++ b2.map (torchItemRecord e st fs)) ∧
       torchRun e st fs b1 = Except.ok (b1.map (torchItemRecord e st fs)) ∧
       torchRun e st fs b2 = Except.ok (b2.map (torchItemRecord e st fs))) ∧
    (∀ (st : NlpState) (fs : String → Option (List String)) (mb : List String),
       (∀ p ∈ mb, (fs p).isSome = true) →
       (mb.map (fun p => (fs p).getD [])).flatten ≠ [] →
       nlpRun st fs mb = Except.ok ((mb.map (nlpFileRecords st fs)).flatten)) := by
  constructor
  · intro e st fs b1 b2 hv1 hv2
    have hv12 : ∀ p ∈ b1 ++ b2, (fs p).isSome = true := by
      intro p hp
      rcases List.mem_append.mp hp with h | h
      · exact hv1 p h
      · exact hv2 p h
    refine ⟨?_, torchRun_eq_map e st fs b1 hv1, torchRun_eq_map e st fs b2 hv2⟩
    rw [torchRun_eq_map e st fs (b1 ++ b2) hv12, List.map_append]
  · intro st fs mb hv hne
    exact nlpRun_eq_flatten st fs mb hv hne

/-- C7 witness: a concrete split of a torch mini-batch and a concrete
NLP mini-batch realize the re-partitioning invariance. -/
theorem run_invariant_under_repartitioning_witness :
    (torchRun expOne cexTorchState cexImgFs (["a.png"] ++ ["b.png"])
       = Except.ok (["a.png"].map (torchItemRecord expOne cexTorchState cexImgFs)
           ++ ["b.png"].map (torchItemRecord expOne cexTorchState cexImgFs)) ∧
     torchRun expOne cexTorchState cexImgFs ["a.png"]
       = Except.ok (["a.png"].map (torchItemRecord expOne cexTorchState cexImgFs)) ∧
     torchRun expOne cexTorchState cexImgFs ["b.png"]
       = Except.ok (["b.png"].map (torchItemRecord expOne cexTorchState cexImgFs))) ∧
    nlpRun cexNlpState cexNlpFs ["reviews.csv", "empty.csv"]
      = Except.ok ((["reviews.csv", "empty.csv"].map
          (nlpFileRecords cexNlpState cexNlpFs)).flatten) :=
  ⟨run_invariant_under_repartitioning.1 expOne cexTorchState cexImgFs
     ["a.png"] ["b.png"] (by decide) (by decide),
   run_invariant_under_repartitioning.2 cexNlpState cexNlpFs
     ["reviews.csv", "empty.csv"] (by decide) (by decide)⟩

/-- C8: determinism of inference given a fixed init state: the same
input item occurring at any positions of any two all-valid mini-batches
yields the same result record, the per-item record of that item; for
the NLP driver the records contributed by the same file are the same
contiguous list in both runs. -/
theorem same_item_same_record :
    (∀ (e : ℚ → ℚ) (st : TorchState) (fs : String → Option Image)
       (mb1 mb2 : List String) (i j : Nat) (p : String),
       (∀ q ∈ mb1, (fs q).isSome = true) → (∀ q ∈ mb2, (fs q).isSome = true) →
       mb1[i]? = some p → mb2[j]? = some p →
       ∃ rs1 rs2, torchRun e st fs mb1 = Except.ok rs1 ∧
         torchRun e st fs mb2 = Except.ok rs2 ∧
         rs1[i]? = some (torchItemRecord e st fs p) ∧
         rs2[j]? = some (torchItemRecord e st fs p)) ∧
    (∀ (st : NlpState) (fs : String → Option (List String))
       (mb1 mb2 : List String) (p : String),
       (∀ q ∈ mb1, (fs q).isSome = true) → (∀ q ∈ mb2, (fs q).isSome = true) →
       (mb1.map (fun q => (fs q).getD [])).flatten ≠ [] →
       (mb2.map (fun q => (fs q).getD [])).flatten ≠ [] →
       p ∈ mb1 → p ∈ mb2 →
       ∃ rs1 rs2, nlpRun st fs mb1 = Except.ok rs1 ∧
         nlpRun st fs mb2 = Except.ok rs2 ∧
         List.IsInfix (nlpFileRecords st fs p) rs1 ∧
         List.IsInfix (nlpFileRecords st fs p) rs2) := by
  constructor
  · intro e st fs mb1 mb2 i j p hv1 hv2 hi hj
    refine ⟨_, _, torchRun_eq_map e st fs mb1 hv1, torchRun_eq_map e st fs mb2 hv2, ?_, ?_⟩
    · rw [List.getElem?_map, hi]
      rfl
    · rw [List.getElem?_map, hj]
      rfl
  · intro st fs mb1 mb2 p hv1 hv2 hne1 hne2 hp1 hp2
    refine ⟨_, _, nlpRun_eq_flatten st fs mb1 hv1 hne1,
      nlpRun_eq_flatten st fs mb2 hv2 hne2, ?_, ?_⟩
    · exact List.infix_of_mem_flatten
        (List.mem_map_of_mem (nlpFileRecords st fs) hp1)
    · exact List.infix_of_mem_flatten
        (List.mem_map_of_mem (nlpFileRecords st fs) hp2)

/-- C8 witness: the item b.png at position 1 of one mini-batch and at
position 0 of another yields the same record, and the file reviews.csv
contributes the same records to two different NLP mini-batches. -/
theorem same_item_same_record_witness :
    (∃ rs1 rs2,
       torchRun expOne cexTorchState cexImgFs ["a.png", "b.png"] = Except.ok rs1 ∧
       torchRun expOne cexTorchState cexImgFs ["b.png"] = Except.ok rs2 ∧
       rs1[1]? = some (torchItemRecord expOne cexTorchState cexImgFs "b.png") ∧
       rs2[0]? = some (torchItemRecord expOne cexTorchState cexImgFs "b.png")) ∧
    (∃ rs1 rs2,
       nlpRun cexNlpState cexNlpFs ["reviews.csv"] = Except.ok rs1 ∧
       nlpRun cexNlpState cexNlpFs ["empty.csv", "reviews.csv"] = Except.ok rs2 ∧
       List.IsInfix (nlpFileRecords cexNlpState cexNlpFs "reviews.csv") rs1 ∧
       List.IsInfix (nlpFileRecords cexNlpState cexNlpFs "reviews.csv") rs2) :=
  ⟨same_item_same_record.1 expOne cexTorchState cexImgFs
     ["a.png", "b.png"] ["b.png"] 1 0 "b.png"
     (by decide) (by decide) (by decide) (by decide),
   same_item_same_record.2 cexNlpState cexNlpFs
     ["reviews.csv"] ["empty.csv", "reviews.csv"] "reviews.csv"
     (by decide) (by decide) (by decide) (by decide) (by decide) (by decide)⟩

/-- C9: the file field of the records of both image drivers holds only
the basename of the input path: two inputs whose paths differ only in
the directory component produce records with identical file fields,
indistinguishable by that field. -/
theorem file_field_is_basename_only
    (e : ℚ → ℚ) (st : TorchState) (kst : KerasState) (fs : String → Option Image)
    (d1 d2 nm : String) (img1 img2 : Image)
    (hnm : ∀ c ∈ nm.toList, c ≠ '/')
    (h1 : fs (d1 ++ "/" ++ nm) = some img1)
    (h2 : fs (d2 ++ "/" ++ nm) = some img2) :
    (∃ r1 r2, torchRun e st fs [d1 ++ "/" ++ nm, d2 ++ "/" ++ nm]
       = Except.ok [r1, r2] ∧ r1.file = nm ∧ r2.file = nm ∧ r1.file = r2.file) ∧
    (∃ r1 r2, kerasRun e kst fs [d1 ++ "/" ++ nm, d2 ++ "/" ++ nm]
       = Except.ok [r1, r2] ∧ r1.file = nm ∧ r2.file = nm ∧ r1.file = r2.file) := by
  have hbase1 := basename_append d1 nm hnm
  have hbase2 := basename_append d2 nm hnm
  constructor
  · refine ⟨torchScore e st img1 (d1 ++ "/" ++ nm),
      torchScore e st img2 (d2 ++ "/" ++ nm), ?_, hbase1, hbase2, ?_⟩
    · simp [torchRun, h1, h2]
    · show basename (d1 ++ "/" ++ nm) = basename (d2 ++ "/" ++ nm)
      rw [hbase1, hbase2]
  · refine ⟨kerasScore e kst img1 (d1 ++ "/" ++ nm),
      kerasScore e kst img2 (d2 ++ "/" ++ nm), ?_, hbase1, hbase2, ?_⟩
    · simp [kerasRun, h1, h2]
    · show basename (d1 ++ "/" ++ nm) = basename (d2 ++ "/" ++ nm)
      rw [hbase1, hbase2]

/-- C9 witness: the same image name under two concrete directories
yields records with the identical file field img.png in both drivers. -/
theorem file_field_is_basename_only_witness :
    (∃ r1 r2, torchRun expOne cexTorchState cexImgFsDirs
       ["inputs/setA" ++ "/" ++ "img.png", "inputs/setB" ++ "/" ++ "img.png"]
       = Except.ok [r1, r2] ∧
       r1.file = "img.png" ∧ r2.file = "img.png" ∧ r1.file = r2.file) ∧
    (∃ r1 r2, kerasRun expOne cexKerasState cexImgFsDirs
       ["inputs/setA" ++ "/" ++ "img.png", "inputs/setB" ++ "/" ++ "img.png"]
       = Except.ok [r1, r2] ∧
       r1.file = "img.png" ∧ r2.file = "img.png" ∧ r1.file = r2.file) :=
  file_field_is_basename_only expOne cexTorchState cexKerasState cexImgFsDirs
    "inputs/setA" "inputs/setB" "img.png" [1] [2]
    (by decide) (by decide) (by decide)

/-- C10: the parquet output path depends only on the output directory
and the stem of the input path, so two input items with equal stems
collide: both to_parquet calls target the same path, and after the
writes of the same mini-batch or of two successive mini-batches the
output directory holds the later item's table at that path. -/
theorem equal_stems_collide_on_output_path
    (st : PqState) (fs : String → Option Table) (out0 : String → Option Table)
    (p q : String) (dp dq : Table)
    (hp : fs p = some dp) (hq : fs q = some dq) (hstem : stem p = stem q) :
    pqOutPath st p = pqOutPath st q ∧
    parquetRun st fs [p, q]
      = Except.ok ([(pqOutPath st p, pqOutTable st dp),
                    (pqOutPath st q, pqOutTable st dq)], [p, q]) ∧
    applyWrites [(pqOutPath st p, pqOutTable st dp),
                 (pqOutPath st q, pqOutTable st dq)] out0 (pqOutPath st p)
      = some (pqOutTable st dq) ∧
    applyWrites [(pqOutPath st q, pqOutTable st dq)]
      (applyWrites [(pqOutPath st p, pqOutTable st dp)] out0) (pqOutPath st p)
      = some (pqOutTable st dq) := by
  have hpath : pqOutPath st p = pqOutPath st q := by
    simp [pqOutPath, hstem]
  refine ⟨hpath, ?_, ?_, ?_⟩
  · simp [parquetRun, parquetWrites, hp, hq]
  · simp [applyWrites, writeFile, hpath]
  · simp [applyWrites, writeFile, hpath]

/-- C10 witness: two concrete inputs named data.csv in different
directories collide on the same output path and the second one's table
survives. -/
theorem equal_stems_collide_on_output_path_witness :
    pqOutPath cexPqState "folder1/data.csv" = pqOutPath cexPqState "folder2/data.csv" ∧
    parquetRun cexPqState cexCsvFs ["folder1/data.csv", "folder2/data.csv"]
      = Except.ok ([(pqOutPath cexPqState "folder1/data.csv",
                     pqOutTable cexPqState [[1, 2], [3, 4]]),
                    (pqOutPath cexPqState "folder2/data.csv",
                     pqOutTable cexPqState [[5, 6]])],
                   ["folder1/data.csv", "folder2/data.csv"]) ∧
    applyWrites [(pqOutPath cexPqState "folder1/data.csv",
                  pqOutTable cexPqState [[1, 2], [3, 4]]),
                 (pqOutPath cexPqState "folder2/data.csv",
                  pqOutTable cexPqState [[5, 6]])] (fun _ => none)
      (pqOutPath cexPqState "folder1/data.csv")
      = some (pqOutTable cexPqState [[5, 6]]) ∧
    applyWrites [(pqOutPath cexPqState "folder2/data.csv",
                  pqOutTable cexPqState [[5, 6]])]
      (applyWrites [(pqOutPath cexPqState "folder1/data.csv",
                     pqOutTable cexPqState [[1, 2], [3, 4]])] (fun _ => none))
      (pqOutPath cexPqState "folder1/data.csv")
      = some (pqOutTable cexPqState [[5, 6]]) :=
  equal_stems_collide_on_output_path cexPqState cexCsvFs (fun _ => none)
    "folder1/data.csv" "folder2/data.csv" [[1, 2], [3, 4]] [[5, 6]]
    rfl rfl (by decide)

end AzureMLBatch
